import Mathlib

/-!
Verification development for the ai-server backend (server/index.js).

The file shallowly embeds the five HTTP route handlers of the Express
server as pure Lean functions.  Query parameters, JSON body fields and
environment variables are modelled as `Option String` (`none` = the
value is absent / `undefined`); JavaScript truthiness of such values is
modelled by `truthy`.  Each outbound HTTP call is modelled by an
explicit "upstream outcome" argument, and every handler result records
whether the outbound call was actually issued, so that "no outbound
request is made" is a statement about the result.
-/

/-- JavaScript truthiness of an optional string: `undefined` and the
empty string are falsy, every other string is truthy. -/
def truthy : Option String → Bool
  | none => false
  | some s => !(s == "")

/-- JavaScript `a || b` for an optional string `a` and a string default
`b`: yields `b` exactly when `a` is absent or empty. -/
def jsOr (a : Option String) (b : String) : String :=
  match a with
  | none => b
  | some s => if s == "" then b else s

/-- ASCII characters left unescaped by JavaScript `encodeURIComponent`:
letters, digits, and `- _ . ! ~ * ' ( )`. -/
def isUriUnreserved (c : Char) : Bool :=
  c.isAlpha || c.isDigit ||
  c.toNat == 45 || c.toNat == 95 || c.toNat == 46 || c.toNat == 33 ||
  c.toNat == 126 || c.toNat == 42 || c.toNat == 39 || c.toNat == 40 ||
  c.toNat == 41

/-- Uppercase hexadecimal digit for `n < 16`. -/
def hexDigit (n : Nat) : Char :=
  if n < 10 then Char.ofNat (48 + n) else Char.ofNat (55 + n)

/-- Percent-encoding of one byte, e.g. `32 ↦ %20`. -/
def encodeByte (b : Nat) : List Char :=
  [Char.ofNat 37, hexDigit (b / 16), hexDigit (b % 16)]

/-- UTF-8 byte sequence of a character (as natural numbers). -/
def utf8Bytes (c : Char) : List Nat :=
  let n := c.toNat
  if n < 128 then [n]
  else if n < 2048 then [192 + n / 64, 128 + n % 64]
  else if n < 65536 then [224 + n / 4096, 128 + n / 64 % 64, 128 + n % 64]
  else [240 + n / 262144, 128 + n / 4096 % 64, 128 + n / 64 % 64, 128 + n % 64]

/-- Model of JavaScript `encodeURIComponent`: unreserved characters are
kept, every other character is replaced by the percent-encoding of its
UTF-8 bytes. -/
def encodeURIComponent (s : String) : String :=
  String.mk (s.data.foldr
    (fun c acc =>
      if isUriUnreserved c then c :: acc
      else (utf8Bytes c).foldr (fun b acc2 => encodeByte b ++ acc2) acc)
    [])

/-! ## GET /news -/

/-- One `<item>` of the feed as produced by `xml2js.parseString`: each
present tag becomes a list of its string values; an absent
`<description>` tag becomes an absent key. -/
structure FeedItem where
  title : List String
  link : List String
  pubDate : List String
  description : Option (List String)
  deriving DecidableEq

/-- `result.rss.channel[0]` node: the `item` key is absent when the
channel has no `<item>` children. -/
structure XmlChannel where
  item : Option (List FeedItem)
  deriving DecidableEq

/-- `result.rss` node. -/
structure XmlRss where
  channel : Option (List XmlChannel)
  deriving DecidableEq

/-- The whole parse result handed to the `parseString` callback. -/
structure XmlResult where
  rss : Option XmlRss
  deriving DecidableEq

/-- An article record as built by the `/news` handler.  Fields are
`Option String` because a JavaScript indexing `xs[0]` of an empty array
yields `undefined`. -/
structure Article where
  title : Option String
  link : Option String
  pubDate : Option String
  description : Option String
  deriving DecidableEq

/-- The mapping applied to each of the (at most 5) selected feed items:
`title: item.title[0]`, `link: item.link[0]`, `pubDate: item.pubDate[0]`,
`description: item.description ? item.description[0] : "No description
available"`. -/
def toArticle (it : FeedItem) : Article :=
  { title := it.title.head?
    link := it.link.head?
    pubDate := it.pubDate.head?
    description :=
      match it.description with
      | some ds => ds.head?
      | none => some ("No description available") }

/-- The structure check of the handler:
`!result.rss || !result.rss.channel || !result.rss.channel[0] ||
!result.rss.channel[0].item` fails (yielding `none` here) exactly when
one of those accesses is absent or the channel list is empty. -/
def extractItems (result : XmlResult) : Option (List FeedItem) :=
  match result.rss with
  | none => none
  | some rss =>
    match rss.channel with
    | none => none
    | some [] => none
    | some (c0 :: _) => c0.item

/-- Outcome of `axios.get(rssURL)` followed by `xml2js.parseString`:
the transport may fail, and the XML may fail to parse. -/
inductive NewsUpstream where
  | fetchFail
  | fetchOk (p : Option XmlResult)
  deriving DecidableEq

/-- Response body of the `/news` handler. -/
inductive NewsBody where
  | err (msg : String)
  | arts (articles : List Article)
  deriving DecidableEq

/-- Result of one `/news` request: HTTP status, JSON body, and whether
the outbound RSS request was issued. -/
structure NewsOutcome where
  status : Nat
  body : NewsBody
  fetched : Bool
  deriving DecidableEq

/-- The `/news` route handler.  `keyword` is `req.query.keyword`;
`upstream` is the outcome of the RSS fetch and XML parse (`fetchOk none`
models a parse error, i.e. `parseString` calling back with `err`). -/
def newsHandler (keyword : Option String) (upstream : NewsUpstream) :
    NewsOutcome :=
  if !(truthy keyword) then
    ⟨400, .err ("Keyword is required"), false⟩
  else
    match upstream with
    | .fetchFail => ⟨500, .err ("Failed to fetch news"), true⟩
    | .fetchOk none => ⟨500, .err ("Failed to parse RSS feed"), true⟩
    | .fetchOk (some result) =>
      match extractItems result with
      | none => ⟨404, .err ("No articles found for this keyword"), true⟩
      | some items => ⟨200, .arts ((items.take 5).map toArticle), true⟩

/-! ## POST /generate-post -/

/-- An element of the `articles` array of the request body: `title` and
`description` may each be absent. -/
structure ArticleIn where
  title : Option String
  description : Option String
  deriving DecidableEq

/-- JavaScript string interpolation of a possibly-`undefined` value:
`undefined` prints as `"undefined"`. -/
def jsShow : Option String → String
  | none => "undefined"
  | some s => s

/-- The prompt block built by the handler:
`articles.map((a,i) => `(${i+1}) ${a.title} - ${a.description}`).join("\n\n")`. -/
def buildContent (articles : List ArticleIn) : String :=
  String.intercalate "\n\n"
    (articles.enum.map
      (fun p =>
        "(" ++ toString (p.1 + 1) ++ ") " ++ jsShow p.2.title ++ " - " ++
          jsShow p.2.description))

/-- The JavaScript whitespace class used by `String.prototype.trim`:
WhiteSpace ∪ LineTerminator of the ECMAScript specification. -/
def isJsWhitespace (c : Char) : Bool :=
  c.toNat == 9 || c.toNat == 10 || c.toNat == 11 || c.toNat == 12 ||
  c.toNat == 13 || c.toNat == 32 || c.toNat == 160 || c.toNat == 5760 ||
  (8192 ≤ c.toNat && c.toNat ≤ 8202) ||
  c.toNat == 8232 || c.toNat == 8233 || c.toNat == 8239 ||
  c.toNat == 8287 || c.toNat == 12288 || c.toNat == 65279

/-- Model of JavaScript `String.prototype.trim`: removes the maximal
run of JS whitespace from both ends. -/
def jsTrim (s : String) : String :=
  String.mk
    (((s.data.dropWhile isJsWhitespace).reverse.dropWhile
        isJsWhitespace).reverse)

/-- `true` when neither the first nor the last character of the string
is JS whitespace. -/
def noEdgeWhitespace (s : String) : Bool :=
  (match s.data.head? with
   | some c => !isJsWhitespace c
   | none => true) &&
  (match s.data.getLast? with
   | some c => !isJsWhitespace c
   | none => true)

/-- `message` of one upstream chat-completion choice. -/
structure LMMessage where
  content : String
  deriving DecidableEq

/-- One element of `response.data.choices`. -/
structure LMChoice where
  message : LMMessage
  deriving DecidableEq

/-- Outcome of the `axios.post` to the chat-completion endpoint: any
error (carrying the optional `error.response?.data?.error` detail), or
a response with its `choices` array. -/
inductive LMUpstream where
  | failure (detail : Option String)
  | success (choices : List LMChoice)
  deriving DecidableEq

/-- The `articles` field of the request body: absent, a non-array value
(split by its truthiness), or an array. -/
inductive ArticlesField where
  | absent
  | nonArrayTruthy
  | nonArrayFalsy
  | array (as : List ArticleIn)
  deriving DecidableEq

/-- Response body of the `/generate-post` handler. -/
inductive GenBody where
  | badReq (error : String)
  | errDetails (error : String) (details : String)
  | post (s : String)
  deriving DecidableEq

/-- Result of one `/generate-post` request: HTTP status, JSON body, and
whether the language-model endpoint was called. -/
structure GenOutcome where
  status : Nat
  body : GenBody
  calledLM : Bool
  deriving DecidableEq

/-- The `/generate-post` route handler.  The guard is
`!articles || !Array.isArray(articles) || articles.length === 0`; on
success the reply is `response.data.choices[0].message.content.trim()`,
and an empty `choices` array makes that access throw, which the `catch`
turns into the 500 reply with the default detail. -/
def generatePostHandler (articles : ArticlesField) (upstream : LMUpstream) :
    GenOutcome :=
  match articles with
  | .absent => ⟨400, .badReq ("Articles required"), false⟩
  | .nonArrayFalsy => ⟨400, .badReq ("Articles required"), false⟩
  | .nonArrayTruthy => ⟨400, .badReq ("Articles required"), false⟩
  | .array [] => ⟨400, .badReq ("Articles required"), false⟩
  | .array (_ :: _) =>
    match upstream with
    | .failure d =>
      ⟨500, .errDetails ("Failed to generate post")
          (jsOr d ("AI service unavailable")), true⟩
    | .success [] =>
      ⟨500, .errDetails ("Failed to generate post")
          ("AI service unavailable"), true⟩
    | .success (c :: _) => ⟨200, .post (jsTrim c.message.content), true⟩

/-! ## GET /auth/linkedin -/

/-- Environment configuration read by the OAuth redirect handler. -/
structure AuthConfig where
  clientId : Option String
  redirectUri : Option String
  deriving DecidableEq

/-- Response of the `/auth/linkedin` handler: a JSON error or an HTTP
redirect. -/
inductive AuthResp where
  | jsonErr (status : Nat) (error : String)
  | redirect (url : String)
  deriving DecidableEq

/-- The `/auth/linkedin` route handler.  The guard is
`!clientId || !redirectUri`; otherwise the authorization URL is built
with the raw client id, the URL-encoded redirect URI and the URL-encoded
fixed scope `w_member_social`. -/
def authLinkedinHandler (cfg : AuthConfig) : AuthResp :=
  if !(truthy cfg.clientId) || !(truthy cfg.redirectUri) then
    .jsonErr 500 ("LinkedIn OAuth not configured")
  else
    .redirect ("https://www.linkedin.com/oauth/v2/authorization" ++
      "?response_type=code&client_id=" ++ cfg.clientId.getD ("") ++
      "&redirect_uri=" ++ encodeURIComponent (cfg.redirectUri.getD ("")) ++
      "&scope=" ++ encodeURIComponent ("w_member_social"))

/-! ## GET /auth/linkedin/callback -/

/-- Outcome of the token-exchange `axios.post`: failure, or success
carrying `tokenRes.data.access_token`. -/
inductive ExchangeOutcome where
  | failure
  | success (accessToken : String)
  deriving DecidableEq

/-- Result of one callback request: the redirect target (the handler
always redirects) and whether the token exchange was attempted. -/
structure CallbackOutcome where
  redirectUrl : String
  exchangeAttempted : Bool
  deriving DecidableEq

/-- The `/auth/linkedin/callback` route handler.  `code`, `error` and
`error_description` are the query parameters; `frontendUrl` is
`process.env.FRONTEND_URL` (defaulted with `||`).  The `error` branch
redirects with `encodeURIComponent(error_description || error)`, the
missing-`code` branch with the unencoded fixed message, and otherwise
the exchange outcome decides between `?linkedin_token=` and the fixed
failure message. -/
def callbackHandler (code errorParam errorDescription frontendUrl :
    Option String) (exchange : ExchangeOutcome) : CallbackOutcome :=
  let fUrl := jsOr frontendUrl ("http://localhost:3000")
  if truthy errorParam then
    ⟨fUrl ++ "?error=" ++
        encodeURIComponent (jsOr errorDescription (errorParam.getD (""))),
      false⟩
  else if !(truthy code) then
    ⟨fUrl ++ "?error=Authorization code not provided", false⟩
  else
    match exchange with
    | .success tok => ⟨fUrl ++ "?linkedin_token=" ++ tok, true⟩
    | .failure =>
      ⟨fUrl ++ "?error=" ++
          encodeURIComponent ("LinkedIn authentication failed"), true⟩

/-! ## POST /linkedin/post -/

/-- Outcome of the publish `axios.post`: failure (carrying the optional
`error.response?.data?.message`), or success. -/
inductive PubUpstream where
  | failure (message : Option String)
  | success
  deriving DecidableEq

/-- Response body of the `/linkedin/post` handler. -/
inductive PubBody where
  | badReq (error : String)
  | errDetails (error : String) (details : String)
  | ok (succeeded : Bool) (message : String)
  deriving DecidableEq

/-- Result of one `/linkedin/post` request: HTTP status, JSON body, and
whether the outbound publish call was issued. -/
structure PubOutcome where
  status : Nat
  body : PubBody
  outbound : Bool
  deriving DecidableEq

/-- The `/linkedin/post` route handler.  The guard is
`!token || !content`. -/
def linkedinPostHandler (token content : Option String)
    (upstream : PubUpstream) : PubOutcome :=
  if !(truthy token) || !(truthy content) then
    ⟨400, .badReq ("Token and content required"), false⟩
  else
    match upstream with
    | .success => ⟨200, .ok true ("Posted on LinkedIn!"), true⟩
    | .failure m =>
      ⟨500, .errDetails ("Failed to post on LinkedIn")
          (jsOr m ("LinkedIn API error")), true⟩

/-- A concrete seven-item feed, echoing the spec's example of a feed
with 7 items yielding exactly 5 articles. -/
def sevenItems : List FeedItem :=
  [⟨["t1"], ["l1"], ["d1"], none⟩,
   ⟨["t2"], ["l2"], ["d2"], some ["dsc2"]⟩,
   ⟨["t3"], ["l3"], ["d3"], none⟩,
   ⟨["t4"], ["l4"], ["d4"], none⟩,
   ⟨["t5"], ["l5"], ["d5"], none⟩,
   ⟨["t6"], ["l6"], ["d6"], none⟩,
   ⟨["t7"], ["l7"], ["d7"], none⟩]

/-! ## Helper lemmas -/

/-- If `dropWhile p` leaves a non-empty list, dropping from the front
does not change the last entry. -/
theorem dropWhile_ne_nil_getLast {α : Type} (p : α → Bool) :
    ∀ l : List α, l.dropWhile p ≠ [] →
      (l.dropWhile p).getLast? = l.getLast? := by
  intro l
  induction l with
  | nil => intro h; simp at h
  | cons a t ih =>
    intro h
    rw [List.dropWhile_cons] at h ⊢
    by_cases hp : p a
    · simp only [hp, if_true] at h ⊢
      have ht : t ≠ [] := by
        intro he
        rw [he] at h
        simp at h
      cases t with
      | nil => exact absurd rfl ht
      | cons b t2 =>
        rw [List.getLast?_cons_cons]
        exact ih h
    · simp [hp]

/-- The head of `dropWhile p` never satisfies `p`. -/
theorem head_of_dropWhile_false {α : Type} (p : α → Bool) (l : List α)
    (c : α) (h : (l.dropWhile p).head? = some c) : p c = false := by
  have hm := List.head?_dropWhile_not p l
  rw [h] at hm
  exact hm

/-- A JS-trimmed string never starts or ends with JS whitespace. -/
theorem noEdgeWhitespace_jsTrim (s : String) :
    noEdgeWhitespace (jsTrim s) = true := by
  have hdata : (jsTrim s).data =
      ((s.data.dropWhile isJsWhitespace).reverse.dropWhile
        isJsWhitespace).reverse := rfl
  unfold noEdgeWhitespace
  rw [hdata, List.head?_reverse, List.getLast?_reverse]
  rcases h2 : (s.data.dropWhile isJsWhitespace).reverse.dropWhile
      isJsWhitespace with _ | ⟨b, t⟩
  · simp
  · have hb : isJsWhitespace b = false := by
      apply head_of_dropWhile_false isJsWhitespace
        (s.data.dropWhile isJsWhitespace).reverse
      rw [h2]
      rfl
    have hne : (s.data.dropWhile isJsWhitespace).reverse.dropWhile
        isJsWhitespace ≠ [] := by
      rw [h2]
      simp
    have hgl := dropWhile_ne_nil_getLast isJsWhitespace
      (s.data.dropWhile isJsWhitespace).reverse hne
    rw [h2] at hgl
    rw [hgl, List.getLast?_reverse]
    rcases h1 : (s.data.dropWhile isJsWhitespace).head? with _ | c
    · simp [hb]
    · have hc := head_of_dropWhile_false isJsWhitespace s.data c h1
      simp [hb, hc]

/-! ## Claim theorems -/

/-- Claim C1, counterexample: a successfully parsed feed with the
expected channel/item structure whose single item carries an empty
`<title>` text is returned as an article whose title is the empty
string, so "each returned article has a non-empty title" fails on the
code as stated. -/
theorem news_c1_counterexample :
    newsHandler (some ("bitcoin"))
        (.fetchOk (some ⟨some ⟨some
          [⟨some [⟨[""], ["http://x"], ["d"], none⟩]⟩]⟩⟩)) =
      ⟨200, .arts [⟨some (""), some ("http://x"), some ("d"),
        some ("No description available")⟩], true⟩ ∧
    (toArticle ⟨[""], ["http://x"], ["d"], none⟩).title = some ("") :=
  ⟨rfl, rfl⟩

/-- Claim C1 (amended): for a request with a non-empty keyword and a
successfully fetched and parsed feed with the expected channel/item
structure, the handler returns status 200 with the articles obtained by
mapping each of the first at-most-5 feed items, in feed order, to an
article; there are at most 5 of them; each returned article's title and
link are its item's first title and link values; and every returned
article has a non-empty title and link provided each selected item's
first title and link values are non-empty. -/
theorem news_success_top5 (keyword : String) (hk : keyword ≠ "")
    (rss : XmlRss) (c0 : XmlChannel) (cs : List XmlChannel)
    (items : List FeedItem)
    (hch : rss.channel = some (c0 :: cs)) (hit : c0.item = some items) :
    newsHandler (some keyword) (.fetchOk (some ⟨some rss⟩)) =
      ⟨200, .arts ((items.take 5).map toArticle), true⟩ ∧
    ((items.take 5).map toArticle).length ≤ 5 ∧
    (∀ it ∈ items.take 5,
      (toArticle it).title = it.title.head? ∧
      (toArticle it).link = it.link.head?) ∧
    ((∀ it ∈ items.take 5,
        (∀ t, it.title.head? = some t → t ≠ "") ∧
        (∀ l, it.link.head? = some l → l ≠ "")) →
      ∀ a ∈ (items.take 5).map toArticle,
        (∀ t, a.title = some t → t ≠ "") ∧
        (∀ l, a.link = some l → l ≠ "")) := by
  have hkb : (keyword == "") = false := beq_eq_false_iff_ne.mpr hk
  refine ⟨?_, ?_, ?_, ?_⟩
  · simp [newsHandler, truthy, hkb, extractItems, hch, hit]
  · rw [List.length_map, List.length_take]
    omega
  · intro it _
    exact ⟨rfl, rfl⟩
  · intro h a ha
    obtain ⟨it, hmem, rfl⟩ := List.mem_map.mp ha
    have hi := h it hmem
    exact ⟨hi.1, hi.2⟩

/-- Witness for the amended claim C1: the seven-item feed yields the
first five items as articles. -/
theorem news_success_top5_witness :
    newsHandler (some ("bitcoin"))
        (.fetchOk (some ⟨some ⟨some [⟨some sevenItems⟩]⟩⟩)) =
      ⟨200, .arts ((sevenItems.take 5).map toArticle), true⟩ ∧
    ((sevenItems.take 5).map toArticle).length ≤ 5 :=
  ⟨(news_success_top5 "bitcoin" (by decide) ⟨some [⟨some sevenItems⟩]⟩
      ⟨some sevenItems⟩ [] sevenItems rfl rfl).1,
   (news_success_top5 "bitcoin" (by decide) ⟨some [⟨some sevenItems⟩]⟩
      ⟨some sevenItems⟩ [] sevenItems rfl rfl).2.1⟩

/-- Claim C3: a `/news` request without a `keyword` query parameter
yields status 400 with body `{"error":"Keyword is required"}` and no
outbound HTTP request, whatever the network would have answered. -/
theorem news_missing_keyword_400 (u : NewsUpstream) :
    newsHandler none u = ⟨400, .err ("Keyword is required"), false⟩ := rfl

/-- Claim C4: a `/generate-post` request whose body lacks `articles`,
or whose `articles` is a non-array value (truthy or falsy), or the
empty array, yields status 400 with body `{"error":"Articles required"}`
and never calls the language-model endpoint. -/
theorem generate_post_validation_400 (u : LMUpstream) :
    generatePostHandler .absent u =
      ⟨400, .badReq ("Articles required"), false⟩ ∧
    generatePostHandler .nonArrayTruthy u =
      ⟨400, .badReq ("Articles required"), false⟩ ∧
    generatePostHandler .nonArrayFalsy u =
      ⟨400, .badReq ("Articles required"), false⟩ ∧
    generatePostHandler (.array []) u =
      ⟨400, .badReq ("Articles required"), false⟩ :=
  ⟨rfl, rfl, rfl, rfl⟩

/-- Claim C5: a `/linkedin/post` request whose body lacks `token` or
lacks `content` yields status 400 with body
`{"error":"Token and content required"}` and no outbound HTTP
request. -/
theorem publish_missing_field_400 (token content : Option String)
    (u : PubUpstream) (h : token = none ∨ content = none) :
    linkedinPostHandler token content u =
      ⟨400, .badReq ("Token and content required"), false⟩ := by
  cases h with
  | inl ht =>
    subst ht
    rfl
  | inr hc =>
    subst hc
    cases token with
    | none => rfl
    | some s => simp [linkedinPostHandler, truthy]

/-- Witness for claim C5 at a concrete input: token present, content
absent. -/
theorem publish_missing_field_400_witness :
    linkedinPostHandler (some ("tok123")) none .success =
      ⟨400, .badReq ("Token and content required"), false⟩ :=
  publish_missing_field_400 (some ("tok123")) none .success (Or.inr rfl)

/-- Claim C2, counterexample: the callback guard tests JavaScript
truthiness, not presence.  With `?error=` (present but empty) and a
`code`, the token exchange is attempted and the redirect carries the
token; and with a present-but-empty `error_description`, the redirect
carries the encoded `error` code, not the encoded description. -/
theorem callback_c2_counterexample :
    callbackHandler (some ("abc")) (some ("")) none none
        (.success ("tok")) =
      ⟨"http://localhost:3000?linkedin_token=tok", true⟩ ∧
    callbackHandler none (some ("denied")) (some ("")) none .failure =
      ⟨"http://localhost:3000?error=denied", false⟩ := by
  exact ⟨by decide, by decide⟩

/-- Claim C2 (amended): for every callback request whose query contains
a non-empty `error` parameter, the handler redirects to the frontend
URL with `?error=` set to the URL-encoded `error_description` if that
is present and non-empty, otherwise the URL-encoded `error` code; this
happens regardless of whether `code` is present, and no token exchange
is attempted. -/
theorem callback_error_redirect
    (code errorDescription frontendUrl : Option String)
    (e : String) (he : e ≠ "") (ex : ExchangeOutcome) :
    callbackHandler code (some e) errorDescription frontendUrl ex =
      ⟨jsOr frontendUrl ("http://localhost:3000") ++ "?error=" ++
          (match errorDescription with
           | some d =>
             if d == "" then encodeURIComponent e else encodeURIComponent d
           | none => encodeURIComponent e),
        false⟩ := by
  have heb : (e == "") = false := beq_eq_false_iff_ne.mpr he
  cases errorDescription with
  | none => simp [callbackHandler, truthy, heb, jsOr]
  | some d =>
    cases hd : d == "" with
    | true => simp [callbackHandler, truthy, heb, jsOr, hd]
    | false => simp [callbackHandler, truthy, heb, jsOr, hd]

/-- Witness for the amended claim C2: a concrete denial with a
non-empty description; the space is percent-encoded. -/
theorem callback_error_redirect_witness :
    callbackHandler (some ("xyz")) (some ("access_denied"))
        (some ("user denied")) none .failure =
      ⟨"http://localhost:3000?error=user%20denied", false⟩ :=
  callback_error_redirect (some ("xyz")) (some ("user denied")) none
    "access_denied" (by decide) .failure

/-- Claim C6: a callback request with neither `code` nor `error`
redirects to the frontend URL with the fixed, unencoded query string
`?error=Authorization code not provided`, and no token exchange is
attempted. -/
theorem callback_no_code_no_error
    (errorDescription frontendUrl : Option String)
    (ex : ExchangeOutcome) :
    callbackHandler none none errorDescription frontendUrl ex =
      ⟨jsOr frontendUrl ("http://localhost:3000") ++
          "?error=Authorization code not provided", false⟩ := rfl

/-- Claim C7: a successful `/generate-post` call whose upstream
response has a first choice returns status 200 with the JS-trimmed
message text, and that text has no leading or trailing whitespace. -/
theorem generate_post_trimmed (as : List ArticleIn) (h : as ≠ [])
    (c : LMChoice) (cs : List LMChoice) :
    generatePostHandler (.array as) (.success (c :: cs)) =
      ⟨200, .post (jsTrim c.message.content), true⟩ ∧
    noEdgeWhitespace (jsTrim c.message.content) = true := by
  constructor
  · cases as with
    | nil => exact absurd rfl h
    | cons a t => rfl
  · exact noEdgeWhitespace_jsTrim _

/-- Witness for claim C7: a concrete article list and a reply with
surrounding blanks. -/
theorem generate_post_trimmed_witness :
    generatePostHandler (.array [⟨some ("T"), some ("D")⟩])
        (.success [⟨⟨"  trimmed post  "⟩⟩]) =
      ⟨200, .post (jsTrim ("  trimmed post  ")), true⟩ ∧
    noEdgeWhitespace (jsTrim ("  trimmed post  ")) = true :=
  generate_post_trimmed [⟨some ("T"), some ("D")⟩]
    (by simp) ⟨⟨"  trimmed post  "⟩⟩ []

/-- Claim C8: a feed item without a `description` key is mapped to an
article whose description is the fixed placeholder, and a feed item
whose `description` has a first value is mapped to an article carrying
exactly that first value. -/
theorem article_description_default (it : FeedItem) :
    (it.description = none →
      (toArticle it).description = some ("No description available")) ∧
    (∀ d ds, it.description = some (d :: ds) →
      (toArticle it).description = some d) := by
  constructor
  · intro h
    simp [toArticle, h]
  · intro d ds h
    simp [toArticle, h]

/-- Witness for claim C8 at two concrete feed items. -/
theorem article_description_default_witness :
    (toArticle ⟨["t"], ["l"], ["p"], none⟩).description =
      some ("No description available") ∧
    (toArticle ⟨["t"], ["l"], ["p"], some ["d", "e"]⟩).description =
      some ("d") :=
  ⟨(article_description_default ⟨["t"], ["l"], ["p"], none⟩).1 rfl,
   (article_description_default
      ⟨["t"], ["l"], ["p"], some ["d", "e"]⟩).2 ("d") (["e"]) rfl⟩

/-- Claim C9, counterexample: a configuration whose client id is set
but empty (so neither value is unset) is answered with the 500
configuration error, not with a redirect, because the guard tests
JavaScript truthiness. -/
theorem auth_c9_counterexample :
    authLinkedinHandler ⟨some (""), some ("http://cb")⟩ =
      .jsonErr 500 ("LinkedIn OAuth not configured") := rfl

/-- Claim C9 (amended): if the configured client id or redirect URI is
unset or empty, the handler returns status 500 with an error body;
otherwise it redirects to the authorization URL built from
`response_type=code`, the raw client id, the URL-encoded redirect URI
and the URL-encoded fixed scope `w_member_social` (which the encoding
leaves unchanged). -/
theorem auth_linkedin_behavior (cid ruri : String) (c r : Option String)
    (h1 : cid ≠ "") (h2 : ruri ≠ "") :
    authLinkedinHandler ⟨none, r⟩ =
      .jsonErr 500 ("LinkedIn OAuth not configured") ∧
    authLinkedinHandler ⟨c, none⟩ =
      .jsonErr 500 ("LinkedIn OAuth not configured") ∧
    authLinkedinHandler ⟨some (""), r⟩ =
      .jsonErr 500 ("LinkedIn OAuth not configured") ∧
    authLinkedinHandler ⟨c, some ("")⟩ =
      .jsonErr 500 ("LinkedIn OAuth not configured") ∧
    authLinkedinHandler ⟨some cid, some ruri⟩ =
      .redirect ("https://www.linkedin.com/oauth/v2/authorization" ++
        "?response_type=code&client_id=" ++ cid ++
        "&redirect_uri=" ++ encodeURIComponent ruri ++
        "&scope=" ++ encodeURIComponent ("w_member_social")) ∧
    encodeURIComponent ("w_member_social") = "w_member_social" := by
  have e1 : (cid == "") = false := beq_eq_false_iff_ne.mpr h1
  have e2 : (ruri == "") = false := beq_eq_false_iff_ne.mpr h2
  refine ⟨rfl, ?_, rfl, ?_, ?_, by decide⟩
  · cases c with
    | none => rfl
    | some s => simp [authLinkedinHandler, truthy]
  · cases c with
    | none => rfl
    | some s => simp [authLinkedinHandler, truthy]
  · simp [authLinkedinHandler, truthy, e1, e2]

/-- Witness for the amended claim C9 at a concrete configuration; the
redirect URI is percent-encoded. -/
theorem auth_linkedin_behavior_witness :
    authLinkedinHandler ⟨none, some ("y")⟩ =
      .jsonErr 500 ("LinkedIn OAuth not configured") ∧
    authLinkedinHandler ⟨some ("x"), none⟩ =
      .jsonErr 500 ("LinkedIn OAuth not configured") ∧
    authLinkedinHandler ⟨some (""), some ("y")⟩ =
      .jsonErr 500 ("LinkedIn OAuth not configured") ∧
    authLinkedinHandler ⟨some ("x"), some ("")⟩ =
      .jsonErr 500 ("LinkedIn OAuth not configured") ∧
    authLinkedinHandler ⟨some ("abc"), some ("http://cb")⟩ =
      .redirect ("https://www.linkedin.com/oauth/v2/authorization?response_type=code&client_id=abc&redirect_uri=http%3A%2F%2Fcb&scope=w_member_social") ∧
    encodeURIComponent ("w_member_social") = "w_member_social" :=
  auth_linkedin_behavior "abc" "http://cb" (some ("x")) (some ("y"))
    (by decide) (by decide)

/-- Claim C10: the request validators treat empty strings like absent
values: `/news` with an empty keyword, and `/linkedin/post` with an
empty token or empty content, answer exactly as in the missing-field
case — the same 400 status and error body, with no outbound call. -/
theorem empty_string_like_missing (u : NewsUpstream) (v w : PubUpstream)
    (t c : Option String) :
    newsHandler (some ("")) u =
      ⟨400, .err ("Keyword is required"), false⟩ ∧
    newsHandler (some ("")) u = newsHandler none u ∧
    linkedinPostHandler (some ("")) c v =
      ⟨400, .badReq ("Token and content required"), false⟩ ∧
    linkedinPostHandler t (some ("")) w =
      ⟨400, .badReq ("Token and content required"), false⟩ ∧
    linkedinPostHandler t (some ("")) w = linkedinPostHandler t none w := by
  refine ⟨rfl, rfl, rfl, ?_, ?_⟩
  · cases t with
    | none => rfl
    | some s => simp [linkedinPostHandler, truthy]
  · cases t with
    | none => rfl
    | some s => simp [linkedinPostHandler, truthy]
